import Mathlib

/-!
Shallow embedding of the credential & rating core of the MiniProject-II
backend (TypeScript/Express/Mongoose), for checking its specification.

JavaScript numbers that occur in the modelled code paths (rating values and
the derived film statistics) are modelled as exact rationals; times are
millisecond epochs modelled as naturals.
-/

namespace MiniProject

/-- JS `Math.round`: rounds to the nearest integer, ties toward positive
infinity, i.e. `Math.round x = ⌊x + 0.5⌋`. -/
def jsRound (q : ℚ) : ℤ := ⌊q + 1/2⌋

/-- A document of the `Rating` collection (`RatingSchema`): references to the
owning user and film plus the numeric `rate` value.  The schema puts no `min`
or `max` on `rate`. -/
structure RatingDoc where
  id : Nat
  user : Nat
  film : Nat
  rate : ℚ
deriving DecidableEq

/-- A document of the `Film` collection (`FilmSchema`), restricted to the
fields the rating flows touch: the derived statistics `rating` (the film's
average rating, defaulting to 0) and `totalRatings` (defaulting to 0). -/
structure FilmDoc where
  id : Nat
  name : String
  rating : ℚ
  totalRatings : Nat
deriving DecidableEq

/-- The persisted state the rating flows read and write: the `Film` and
`Rating` collections. -/
structure CatalogState where
  films : List FilmDoc
  ratings : List RatingDoc
deriving DecidableEq

/-- `Rating.find({ film: filmId })`: all ratings referencing the film. -/
def ratingsForFilm (filmId : Nat) (s : CatalogState) : List RatingDoc :=
  s.ratings.filter (fun r => r.film == filmId)

/-- The `totalRatings` value computed by
`RatingController.updateFilmAverageRating`: `ratings.length`. -/
def recomputedTotal (filmId : Nat) (s : CatalogState) : Nat :=
  (ratingsForFilm filmId s).length

/-- The `rating` value computed by `RatingController.updateFilmAverageRating`:
`Math.round((ratings.reduce((sum, r) => sum + r.rate, 0) / totalRatings) * 10) / 10`
when there is at least one rating, and `0` otherwise. -/
def recomputedRating (filmId : Nat) (s : CatalogState) : ℚ :=
  let rs := ratingsForFilm filmId s
  if 0 < rs.length then
    ((jsRound (((rs.map (fun r => r.rate)).sum / (rs.length : ℚ)) * 10) : ℚ)) / 10
  else 0

/-- `RatingController.updateFilmAverageRating(filmId)`: re-reads every rating
of the film and writes the recomputed `rating` and `totalRatings` back with
`Film.findByIdAndUpdate`; a missing film leaves the state unchanged. -/
def updateFilmAverageRating (filmId : Nat) (s : CatalogState) : CatalogState :=
  { s with
    films := s.films.map (fun f =>
      if f.id == filmId then
        { f with rating := recomputedRating filmId s,
                 totalRatings := recomputedTotal filmId s }
      else f) }

/-- Truthiness-plus-range test of `RatingController.createRating`:
`!rate || rate < 0 || rate > 5`.  An absent `rate` and the value `0` are
falsy in JS, so both are rejected. -/
def rateInvalid : Option ℚ → Bool
  | none => true
  | some q => q == 0 || decide (q < 0) || decide (q > 5)

/-- Outcome of `RatingController.createRating`, in source order: the 400
range-validation rejection, the 404 missing film, the 400 duplicate-pair
conflict, or the 201 creation carrying the created rating together with the
re-read film statistics (`none` when the re-read finds no film). -/
inductive CreateRatingOutcome where
  | badRate
  | filmNotFound
  | alreadyRated
  | created (r : RatingDoc) (filmStats : Option (ℚ × Nat))
deriving DecidableEq

/-- `RatingController.createRating`: validates the rate, checks the film
exists, rejects a duplicate (user, film) rating, then persists the new rating,
runs `updateFilmAverageRating`, and re-reads the film for the response. -/
def createRating (userId filmId newId : Nat) (rate : Option ℚ)
    (s : CatalogState) : CreateRatingOutcome × CatalogState :=
  if rateInvalid rate then (.badRate, s)
  else
    match s.films.find? (fun f => f.id == filmId) with
    | none => (.filmNotFound, s)
    | some _ =>
      match s.ratings.find? (fun r => r.user == userId && r.film == filmId) with
      | some _ => (.alreadyRated, s)
      | none =>
        let newDoc : RatingDoc := ⟨newId, userId, filmId, rate.getD 0⟩
        let s1 : CatalogState := { s with ratings := s.ratings ++ [newDoc] }
        let s2 := updateFilmAverageRating filmId s1
        match s2.films.find? (fun f => f.id == filmId) with
        | some f2 => (.created newDoc (some (f2.rating, f2.totalRatings)), s2)
        | none => (.created newDoc none, s2)

/-- `GlobalDAO.delete` specialised to the `Rating` model:
`findByIdAndDelete(id)` removes the document and returns it, or fails with
"Document not found"; it does not touch the `Film` collection. -/
def ratingDAOdelete (id : Nat) (s : CatalogState) :
    Except String (RatingDoc × CatalogState) :=
  match s.ratings.find? (fun r => r.id == id) with
  | none => .error "Document not found"
  | some r => .ok (r, { s with ratings := s.ratings.filter (fun x => !(x.id == id)) })

/-- A numeric path of a Mongoose schema: whether it is required and its
optional `min`/`max` validators. -/
structure NumberPathSchema where
  required : Bool
  min : Option ℚ
  max : Option ℚ

/-- The `rate` path of `RatingSchema`: required, with no `min` and no `max`. -/
def rateSchemaPath : NumberPathSchema := { required := true, min := none, max := none }

/-- The `rating` path of `FilmSchema` (for contrast): optional, `min: 0`,
`max: 5`. -/
def filmRatingSchemaPath : NumberPathSchema :=
  { required := false, min := some 0, max := some 5 }

/-- Mongoose validation of a provided numeric value against a path schema
(as run by `findByIdAndUpdate` with `runValidators: true`): the value must
satisfy the `min` and `max` validators when they are declared. -/
def validateNumberPath (ps : NumberPathSchema) (v : ℚ) : Bool :=
  (match ps.min with | none => true | some m => decide (m ≤ v)) &&
  (match ps.max with | none => true | some M => decide (v ≤ M))

/-- `GlobalDAO.update` specialised to the `Rating` model with update data
`{ rate: v }`: `findByIdAndUpdate(id, { rate: v }, { new: true, runValidators:
true })` validates `v` against the `rate` path schema, stores it, and returns
the updated document; it does not touch the `Film` collection. -/
def ratingDAOupdateRate (id : Nat) (v : ℚ) (s : CatalogState) :
    Except String (RatingDoc × CatalogState) :=
  if !(validateNumberPath rateSchemaPath v) then .error "Validation failed"
  else
    match s.ratings.find? (fun r => r.id == id) with
    | none => .error "Document not found"
    | some r =>
      let r' : RatingDoc := { r with rate := v }
      .ok (r', { s with ratings := s.ratings.map (fun x => if x.id == id then r' else x) })

/-- Modelled from the spec: `GlobalController` (the shared controller base
class) is not among the repository's source files; only its subclasses and
callers are.  The spec treats it as "generic create/read/update/delete
operations on arbitrary resources" — plumbing that delegates to the entity's
DAO and serialises the outcome, with no entity-specific behaviour.  The
`PUT /ratings/:id` route handler therefore delegates to `GlobalDAO.update`. -/
def routeUpdateRating (id : Nat) (v : ℚ) (s : CatalogState) :
    Except String (RatingDoc × CatalogState) :=
  ratingDAOupdateRate id v s

/-- Modelled from the spec: `GlobalController` (the shared controller base
class) is not among the repository's source files; only its subclasses and
callers are.  The spec treats it as generic CRUD plumbing delegating to the
entity's DAO, so the `DELETE /ratings/:id` route handler delegates to
`GlobalDAO.delete`, with no rating-specific recomputation. -/
def routeDeleteRating (id : Nat) (s : CatalogState) :
    Except String (RatingDoc × CatalogState) :=
  ratingDAOdelete id s

/-! ### Credential and password-reset model -/

/-- One of the characters the password policy treats as a special character:
the regex classes `[@$!%*?&]`. -/
def passwordSymbol (c : Char) : Bool :=
  c == '@' || c == '$' || c == '!' || c == '%' || c == '*' || c == '?' || c == '&'

/-- A character admitted by the body of `PASSWORD_REGEX`:
`[A-Za-z\d@$!%*?&]`. -/
def passwordAllowedChar (c : Char) : Bool :=
  c.isLower || c.isUpper || c.isDigit || passwordSymbol c

/-- Semantics of the User model's `PASSWORD_REGEX`
`/^(?=.*[a-z])(?=.*[A-Z])(?=.*\d)(?=.*[@$!%*?&])[A-Za-z\d@$!%*?&]{8,}$/`:
the four lookaheads demand a lower-case letter, an upper-case letter, a digit
and one of `@$!%*?&` somewhere in the string, and the anchored body demands
that the whole string consist of at least eight characters drawn from
`[A-Za-z\d@$!%*?&]`. -/
def passwordRegexAccepts (p : List Char) : Bool :=
  p.any Char.isLower && p.any Char.isUpper && p.any Char.isDigit &&
  p.any passwordSymbol && p.all passwordAllowedChar && decide (8 ≤ p.length)

/-- Follows the spec's words, for comparison with the source predicate:
"minimum length 8, requires upper-case, lower-case, digit, and symbol
classes", reading "symbol" as any character that is neither a letter nor a
digit. -/
def specComplexity (p : List Char) : Bool :=
  decide (8 ≤ p.length) && p.any Char.isUpper && p.any Char.isLower &&
  p.any Char.isDigit && p.any (fun c => !(c.isAlpha || c.isDigit))

/-- Result of saving a User document whose password path was modified. -/
inductive SaveOutcome (α : Type) where
  | ok (a : α)
  | validationError
deriving DecidableEq

/-- `user.save()` with a modified password, per the User schema and its
hooks: Mongoose first runs the password validator (`PASSWORD_REGEX.test`) on
the plaintext and rejects with a `ValidationError` when it fails; only then
does the `pre('save')` hook replace the plaintext with its bcrypt hash.  The
hash function is abstract here (bcrypt is an external library). -/
def userSavePassword (hash : List Char → List Char) (plain : List Char) :
    SaveOutcome (List Char) :=
  if passwordRegexAccepts plain then .ok (hash plain) else .validationError

/-- A document of the `User` collection, restricted to the fields the
login/reset flows touch. -/
structure UserDoc where
  id : Nat
  email : String
  firstName : String
  password : List Char
deriving DecidableEq

/-- A document of the `PasswordResetToken` collection:
`{userId, token, createdAt, expiresAt, used}`. -/
structure ResetTokenDoc where
  id : Nat
  userId : Nat
  token : String
  createdAt : Nat
  expiresAt : Nat
  used : Bool
deriving DecidableEq

/-- The persisted state the password-reset flows read and write. -/
structure AuthState where
  users : List UserDoc
  tokens : List ResetTokenDoc
deriving DecidableEq

/-- An HTTP response as the controllers build it: a status code and the
`message` field of the JSON body. -/
structure HttpOut where
  status : Nat
  message : String
deriving DecidableEq

/-- JS falsiness of an optional string request field: absent or `""`. -/
def strFalsy : Option String → Bool
  | none => true
  | some s => s.isEmpty

/-- JS falsiness of an optional password request field: absent or empty. -/
def pwFalsy : Option (List Char) → Bool
  | none => true
  | some p => p.isEmpty

/-- The return shape of `EmailService.sendPasswordResetEmail`:
`{ success, messageId?, error? }`. -/
structure EmailResponse where
  success : Bool
  errorMsg : Option String
deriving DecidableEq

/-- `EmailService.sendPasswordResetEmail`: sends through SendGrid and returns
`{ success: true, messageId }` on delivery and `{ success: false, error }` on
failure — it never throws and never returns `null`.  The delivery outcome is
abstracted into the `deliveryOk` argument. -/
def sendPasswordResetEmail (deliveryOk : Bool) : EmailResponse :=
  if deliveryOk then { success := true, errorMsg := none }
  else { success := false, errorMsg := some "Unknown error" }

/-- JS truthiness of the value `sendPasswordResetEmail` resolves to: it is
always an `EmailResponse` object, and every JS object is truthy, so the
value is never falsy — regardless of its `success` flag. -/
def EmailResponse.jsFalsy (_ : EmailResponse) : Bool := false

/-- The uniform message `UserController.requestPasswordReset` answers with
both for unregistered and for registered emails. -/
def uniformResetMsg : String :=
  "If your email is registered, you will receive instructions to reset your password"

/-- `UserController.requestPasswordReset`: requires an email, answers the
uniform 200 message when no user has it, and otherwise persists a fresh
reset-token ledger entry expiring in one hour, then calls
`EmailService.sendPasswordResetEmail` and tests `!emailSent` before answering
the uniform 200 message.  The freshly generated token value, its document id
and the current time are passed in as `tokenVal`, `newTokenId` and `now`. -/
def requestPasswordReset (email? : Option String) (now newTokenId : Nat)
    (tokenVal : String) (deliveryOk : Bool) (s : AuthState) :
    HttpOut × AuthState :=
  if strFalsy email? then ({ status := 400, message := "Email address is required" }, s)
  else
    match s.users.find? (fun u => u.email == email?.getD "") with
    | none => ({ status := 200, message := uniformResetMsg }, s)
    | some u =>
      let entry : ResetTokenDoc :=
        { id := newTokenId, userId := u.id, token := tokenVal,
          createdAt := now, expiresAt := now + 3600000, used := false }
      let s1 : AuthState := { s with tokens := s.tokens ++ [entry] }
      let emailSent := sendPasswordResetEmail deliveryOk
      if emailSent.jsFalsy then
        ({ status := 500, message := "Failed to send password reset email" }, s1)
      else
        ({ status := 200, message := uniformResetMsg }, s1)

/-- The filter of `PasswordResetToken.findOne` in
`UserController.resetPassword`: `{ token, used: false, expiresAt: { $gt: new
Date() } }`. -/
def validTokenPred (now : Nat) (tv : String) (t : ResetTokenDoc) : Bool :=
  t.token == tv && t.used == false && decide (now < t.expiresAt)

/-- `UserController.resetPassword`, with the success of the two persistence
writes made explicit: `userSaveOk` is whether the storage write of
`user.save()` succeeds (its validation is modelled separately and first, as
Mongoose runs it before writing), and `tokenSaveOk` is whether
`resetToken.save()` succeeds.  The two saves run sequentially with no
transaction: a failing `resetToken.save()` leaves the already-written
credential update in place. -/
def resetPasswordF (hash : List Char → List Char) (now : Nat)
    (token? : Option String) (newPassword? : Option (List Char))
    (userSaveOk tokenSaveOk : Bool) (s : AuthState) : HttpOut × AuthState :=
  if strFalsy token? || pwFalsy newPassword? then
    ({ status := 400, message := "Token and new password are required" }, s)
  else
    let tv := token?.getD ""
    let np := newPassword?.getD []
    match s.tokens.find? (validTokenPred now tv) with
    | none => ({ status := 400, message := "Invalid or expired password reset token" }, s)
    | some rt =>
      match s.users.find? (fun u => u.id == rt.userId) with
      | none => ({ status := 404, message := "User not found" }, s)
      | some u =>
        if !(passwordRegexAccepts np) then
          ({ status := 400, message := "Password does not meet requirements" }, s)
        else if !userSaveOk then
          ({ status := 500, message := "An error occurred during password reset" }, s)
        else
          let s1 : AuthState :=
            { s with users := s.users.map (fun x =>
                if x.id == u.id then { x with password := hash np } else x) }
          if !tokenSaveOk then
            ({ status := 500, message := "An error occurred during password reset" }, s1)
          else
            ({ status := 200, message := "Password has been reset successfully" },
             { s1 with tokens := s1.tokens.map (fun t =>
                 if t.id == rt.id then { t with used := true } else t) })

/-- `UserController.resetPassword` on the non-failing storage path. -/
def resetPassword (hash : List Char → List Char) (now : Nat)
    (token? : Option String) (newPassword? : Option (List Char))
    (s : AuthState) : HttpOut × AuthState :=
  resetPasswordF hash now token? newPassword? true true s

/-! ### Theorems -/

/-- Updating every film matching an id inside a list, as
`Film.findByIdAndUpdate` does, rewrites exactly the film that a `find?` by
that id locates. -/
theorem find?_map_update (films : List FilmDoc) (filmId : Nat) (rv : ℚ) (tv : Nat)
    (f : FilmDoc) (hf : films.find? (fun x => x.id == filmId) = some f) :
    (films.map (fun x => if x.id == filmId then
        { x with rating := rv, totalRatings := tv } else x)).find?
      (fun x => x.id == filmId) = some { f with rating := rv, totalRatings := tv } := by
  induction films with
  | nil => simp at hf
  | cons a l ih =>
    simp only [List.find?_cons] at hf
    simp only [List.map_cons, List.find?_cons]
    by_cases hb : (a.id == filmId) = true
    · rw [hb] at hf
      simp only at hf
      injection hf with hf
      subst hf
      simp [hb]
    · rw [Bool.of_not_eq_true hb] at hf
      simp only at hf
      rw [if_neg hb, Bool.of_not_eq_true hb]
      exact ih hf

/-- C1: after `updateFilmAverageRating` runs for a film present in the store,
the film's stored average-rating field equals the arithmetic mean of the
`rate` values of all ratings referencing that film, rounded to one decimal
(`Math.round(mean * 10) / 10`), and its `totalRatings` equals their count;
with no ratings the two fields are `0` and `0`. -/
theorem C1_aggregate_recomputation (s : CatalogState) (filmId : Nat) (f : FilmDoc)
    (hf : s.films.find? (fun x => x.id == filmId) = some f) :
    ∃ f', (updateFilmAverageRating filmId s).films.find? (fun x => x.id == filmId) = some f' ∧
      f'.totalRatings = (s.ratings.filter (fun r => r.film == filmId)).length ∧
      f'.rating = (if (s.ratings.filter (fun r => r.film == filmId)).length = 0 then 0
        else (jsRound ((((s.ratings.filter (fun r => r.film == filmId)).map
            (fun r => r.rate)).sum /
          ((s.ratings.filter (fun r => r.film == filmId)).length : ℚ)) * 10) : ℚ) / 10) := by
  have h := find?_map_update s.films filmId (recomputedRating filmId s)
    (recomputedTotal filmId s) f hf
  refine ⟨_, h, rfl, ?_⟩
  show recomputedRating filmId s = _
  rcases Nat.eq_zero_or_pos (s.ratings.filter (fun r => r.film == filmId)).length with h0 | h0
  · simp [recomputedRating, ratingsForFilm, h0]
  · rw [if_neg (by omega)]
    simp only [recomputedRating, ratingsForFilm, if_pos h0]

/-- Demonstration state for the spec's rating example: one film and the
ratings `[3, 5, 4]` for it. -/
def claimOneDemo : CatalogState :=
  { films := [⟨1, "f", 0, 0⟩],
    ratings := [⟨1, 10, 1, 3⟩, ⟨2, 11, 1, 5⟩, ⟨3, 12, 1, 4⟩] }

/-- C1 witness: on the ratings `[3, 5, 4]` the recomputation yields
`averageRating = 4.0` and `totalRatings = 3`. -/
theorem C1_aggregate_recomputation_witness :
    ∃ f', (updateFilmAverageRating 1 claimOneDemo).films.find?
        (fun x => x.id == 1) = some f' ∧
      f'.totalRatings = 3 ∧ f'.rating = 4 := by
  obtain ⟨f', h1, h2, h3⟩ :=
    C1_aggregate_recomputation claimOneDemo 1 ⟨1, "f", 0, 0⟩ (by decide)
  refine ⟨f', h1, ?_, ?_⟩
  · rw [h2]; decide
  · rw [h3]; norm_num [claimOneDemo, jsRound]

/-- C4 demonstration state: an existing film nobody has rated yet. -/
def claimFourDemo : CatalogState := { films := [⟨1, "f", 0, 0⟩], ratings := [] }

/-- C4: the claim that every rate in the closed interval `[0, 5]` is accepted
fails at `rate = 0`: the guard `!rate || rate < 0 || rate > 5` treats the
number `0` as falsy, so an authenticated request for an existing, not yet
rated film with `rate = 0` is answered with the range-validation rejection
and creates nothing, even though `0 ≤ 0 ∧ 0 ≤ 5`. -/
theorem C4_rate_zero_rejected :
    createRating 10 1 99 (some 0) claimFourDemo = (.badRate, claimFourDemo) ∧
    rateInvalid (some 0) = true ∧ (0 : ℚ) ≤ 0 ∧ (0 : ℚ) ≤ 5 := by
  refine ⟨?_, by decide, le_refl 0, by norm_num⟩
  simp [createRating, rateInvalid]

/-- C5: a second rating creation for a (user, film) pair that already has a
rating — with a rate passing the range guard and the film present — is
rejected with the duplicate-rating conflict and returns before any write:
the store, hence the film's `averageRating` and `totalRatings`, is exactly
what it was before the attempt. -/
theorem C5_duplicate_rejected_state_unchanged (s : CatalogState)
    (u f nid : Nat) (r : ℚ) (rd : RatingDoc)
    (hrate : rateInvalid (some r) = false)
    (hfilm : (s.films.find? (fun x => x.id == f)).isSome = true)
    (hdup : s.ratings.find? (fun x => x.user == u && x.film == f) = some rd) :
    createRating u f nid (some r) s = (.alreadyRated, s) := by
  obtain ⟨ff, hff⟩ := Option.isSome_iff_exists.mp hfilm
  simp [createRating, hrate, hff, hdup]

/-- C5 witness: with the ratings `[3, 5, 4]` in place, user 10 rating film 1
again (rate 2) is answered with the conflict and the state is unchanged. -/
theorem C5_duplicate_rejected_state_unchanged_witness :
    createRating 10 1 99 (some 2) claimOneDemo = (.alreadyRated, claimOneDemo) :=
  C5_duplicate_rejected_state_unchanged claimOneDemo 10 1 99 2 ⟨1, 10, 1, 3⟩
    (by decide) (by decide) (by decide)

/-- C2 demonstration state: film 1 carries the aggregate `(4.0, 3)` that
`updateFilmAverageRating` computes from its ratings `[3, 5, 4]`. -/
def claimTwoDemo : CatalogState :=
  { films := [⟨1, "f", 4, 3⟩],
    ratings := [⟨1, 10, 1, 3⟩, ⟨2, 11, 1, 5⟩, ⟨3, 12, 1, 4⟩] }

/-- The state after deleting the rating of value 3 through the public delete
route: the rating is gone but the film document is untouched. -/
def claimTwoAfter : CatalogState :=
  { films := [⟨1, "f", 4, 3⟩],
    ratings := [⟨2, 11, 1, 5⟩, ⟨3, 12, 1, 4⟩] }

/-- C2: the public rating delete route does not trigger the aggregate
recomputation.  Starting from a consistent state (film 1 stores exactly the
recomputed aggregate `(4.0, 3)` of its ratings `[3, 5, 4]`), deleting the
rating of value 3 through `DELETE /ratings/:id` removes the rating but leaves
the film at `(4.0, 3)`, while the recomputation over the remaining ratings
`[5, 4]` yields `(4.5, 2)` — the stored aggregate diverges from the
underlying rating set. -/
theorem C2_delete_skips_recomputation :
    recomputedRating 1 claimTwoDemo = 4 ∧ recomputedTotal 1 claimTwoDemo = 3 ∧
    routeDeleteRating 1 claimTwoDemo = .ok (⟨1, 10, 1, 3⟩, claimTwoAfter) ∧
    claimTwoAfter.films = [⟨1, "f", 4, 3⟩] ∧
    recomputedRating 1 claimTwoAfter = 9/2 ∧
    recomputedTotal 1 claimTwoAfter = 2 ∧
    (4 : ℚ) ≠ 9/2 := by
  refine ⟨?_, by decide, ?_, rfl, ?_, by decide, by norm_num⟩
  · norm_num [recomputedRating, ratingsForFilm, claimTwoDemo, jsRound]
  · simp [routeDeleteRating, ratingDAOdelete, claimTwoDemo, claimTwoAfter]
  · norm_num [recomputedRating, ratingsForFilm, claimTwoAfter, jsRound]

/-- C9: the public rating update route performs no range validation on the
rate: for every rational value `v` — in particular `v < 0` or `v > 5` — and
every existing rating, `PUT /ratings/:id` with `{ rate: v }` succeeds and the
stored document carries `rate = v`, because `RatingSchema` declares no
`min`/`max` for `rate` and `findByIdAndUpdate` with `runValidators` applies
only the schema's validators. -/
theorem C9_update_unvalidated (id : Nat) (v : ℚ) (s : CatalogState)
    (r : RatingDoc) (hr : s.ratings.find? (fun x => x.id == id) = some r) :
    routeUpdateRating id v s =
      .ok ({ r with rate := v },
        { s with ratings := s.ratings.map (fun x =>
            if x.id == id then { r with rate := v } else x) }) ∧
    ({ r with rate := v } : RatingDoc).rate = v := by
  constructor
  · simp [routeUpdateRating, ratingDAOupdateRate, validateNumberPath,
      rateSchemaPath, hr]
  · rfl

/-- C9 witness: in the demo state, updating rating 1 to the out-of-range
values `7` and `-3/2` both succeed and store the new value. -/
theorem C9_update_unvalidated_witness :
    (routeUpdateRating 1 7 claimOneDemo =
      .ok (⟨1, 10, 1, 7⟩,
        { films := claimOneDemo.films,
          ratings := [⟨1, 10, 1, 7⟩, ⟨2, 11, 1, 5⟩, ⟨3, 12, 1, 4⟩] }) ∧
      (⟨1, 10, 1, 7⟩ : RatingDoc).rate = 7) ∧
    (routeUpdateRating 1 (-3/2) claimOneDemo =
      .ok (⟨1, 10, 1, -3/2⟩,
        { films := claimOneDemo.films,
          ratings := [⟨1, 10, 1, -3/2⟩, ⟨2, 11, 1, 5⟩, ⟨3, 12, 1, 4⟩] }) ∧
      (⟨1, 10, 1, -3/2⟩ : RatingDoc).rate = -3/2) := by
  constructor
  · have h := C9_update_unvalidated 1 7 claimOneDemo ⟨1, 10, 1, 3⟩ (by decide)
    refine ⟨?_, h.2⟩
    rw [h.1]
    simp [claimOneDemo]
  · have h := C9_update_unvalidated 1 (-3/2) claimOneDemo ⟨1, 10, 1, 3⟩ (by decide)
    refine ⟨?_, h.2⟩
    rw [h.1]
    simp [claimOneDemo]

/-- A concrete stand-in for the abstract bcrypt hash in witnesses: prefixes a
marker character, so hashed and plain values are distinguishable. -/
def demoHash (p : List Char) : List Char := '#' :: p

/-- A password satisfying `PASSWORD_REGEX`. -/
def goodPw : List Char := ['A', 'a', '1', '@', 'a', 'a', 'a', 'a']

/-- Demo auth state: one user, one fresh unexpired reset-token entry. -/
def authDemo : AuthState :=
  { users := [⟨1, "a@b.com", "Ann", ['o', 'l', 'd']⟩],
    tokens := [⟨1, 1, "tok", 0, 3600000, false⟩] }

/-- C3: the two writes of password-reset consumption are not atomic.  In the
execution where `user.save()` succeeds and the subsequent `resetToken.save()`
fails, the operation reports a 500 error while the observable state has the
user's credential already updated and the token still `used = false`; a
second consumption of the very same token afterwards succeeds — the token
remained replayable after a credential update took effect. -/
theorem C3_reset_writes_not_atomic :
    resetPasswordF demoHash 10 (some "tok") (some goodPw) true false authDemo =
      ({ status := 500, message := "An error occurred during password reset" },
       { users := [⟨1, "a@b.com", "Ann", demoHash goodPw⟩],
         tokens := [⟨1, 1, "tok", 0, 3600000, false⟩] }) ∧
    (resetPassword demoHash 20 (some "tok") (some goodPw)
      { users := [⟨1, "a@b.com", "Ann", demoHash goodPw⟩],
        tokens := [⟨1, 1, "tok", 0, 3600000, false⟩] }).1.status = 200 := by
  exact ⟨by decide, by decide⟩

/-- C8 demo auth state: one registered user, empty token ledger. -/
def requestDemo : AuthState :=
  { users := [⟨1, "a@b.com", "Ann", ['h']⟩], tokens := [] }

/-- C8: on a reset request for a registered email the ledger entry is created
before delivery is attempted and persists when delivery fails — but the
delivery failure is **not** reported distinctly: `sendPasswordResetEmail`
returns an `EmailResponse` object even on failure, every JS object is truthy,
so the controller's `!emailSent` test never fires and the caller receives
exactly the uniform 200 success message that an unregistered email receives;
the 500 branch is unreachable. -/
theorem C8_delivery_failure_not_distinct :
    (sendPasswordResetEmail false).success = false ∧
    requestPasswordReset (some "a@b.com") 0 1 "tok" false requestDemo =
      ({ status := 200, message := uniformResetMsg },
       { users := requestDemo.users,
         tokens := [⟨1, 1, "tok", 0, 3600000, false⟩] }) ∧
    requestPasswordReset (some "no@b.com") 0 1 "tok" false requestDemo =
      ({ status := 200, message := uniformResetMsg }, requestDemo) := by
  exact ⟨by decide, by decide, by decide⟩

/-- A password of acceptable length but failing the complexity regex. -/
def weakPw : List Char := ['w', 'e', 'a', 'k', 'w', 'e', 'a', 'k']

/-- C6 counterexample: consumption does not succeed "exactly when some ledger
entry matches the secret value with `used = false` and a future expiry" — in
the demo state such an entry exists (and the owning user exists), yet
consuming it with a new password failing the complexity validation is
rejected with the separate 'Password does not meet requirements' outcome and
no state change. -/
theorem C6_counterexample :
    authDemo.tokens.find? (validTokenPred 10 "tok") = some ⟨1, 1, "tok", 0, 3600000, false⟩ ∧
    (authDemo.users.find? (fun u => u.id == 1)).isSome = true ∧
    resetPassword demoHash 10 (some "tok") (some weakPw) authDemo =
      ({ status := 400, message := "Password does not meet requirements" }, authDemo) := by
  exact ⟨by decide, by decide, by decide⟩

/-- Each of the seven regex symbol characters is neither a letter nor a
digit, i.e. a symbol in the spec's sense. -/
theorem passwordSymbol_not_alnum (c : Char) (h : passwordSymbol c = true) :
    (!(c.isAlpha || c.isDigit)) = true := by
  simp only [passwordSymbol, Bool.or_eq_true, beq_iff_eq] at h
  rcases h with ((((((h | h) | h) | h) | h) | h) | h) <;> subst h <;> decide

/-- C7 counterexample: the secret `"Aa1#aaaa"` has length 8 and contains an
upper-case letter, a lower-case letter, a digit and a symbol (`'#'`), so it
satisfies the claimed complexity predicate, yet `PASSWORD_REGEX` rejects it
(its body admits only `[A-Za-z\d@$!%*?&]`), and saving it fails with a
validation error. -/
theorem C7_counterexample :
    specComplexity ['A', 'a', '1', '#', 'a', 'a', 'a', 'a'] = true ∧
    ['A', 'a', '1', '#', 'a', 'a', 'a', 'a'].length = 8 ∧
    passwordRegexAccepts ['A', 'a', '1', '#', 'a', 'a', 'a', 'a'] = false ∧
    userSavePassword demoHash ['A', 'a', '1', '#', 'a', 'a', 'a', 'a'] =
      .validationError := by
  exact ⟨by decide, by decide, by decide, by decide⟩

/-- C7 amended: the validator accepts a secret exactly when it has length at
least 8, consists solely of letters, digits and the symbols `@$!%*?&`, and
contains at least one lower-case letter, one upper-case letter, one digit and
one of those seven symbols.  Every accepted secret in particular satisfies
the spec's four character classes; and a secret the validator rejects is
rejected with a validation error with no hashing performed (the outcome does
not depend on the hash function), while an accepted one is stored hashed. -/
theorem C7_password_validator (p : List Char) :
    (passwordRegexAccepts p = true ↔
      (8 ≤ p.length ∧ (∀ c ∈ p, passwordAllowedChar c = true) ∧
       (∃ c ∈ p, c.isLower = true) ∧ (∃ c ∈ p, c.isUpper = true) ∧
       (∃ c ∈ p, c.isDigit = true) ∧ (∃ c ∈ p, passwordSymbol c = true))) ∧
    (passwordRegexAccepts p = true → specComplexity p = true) ∧
    (passwordRegexAccepts p = false →
      ∀ hash, userSavePassword hash p = .validationError) ∧
    (passwordRegexAccepts p = true →
      ∀ hash, userSavePassword hash p = .ok (hash p)) := by
  refine ⟨?_, ?_, ?_, ?_⟩
  · simp only [passwordRegexAccepts, Bool.and_eq_true, List.any_eq_true,
      List.all_eq_true, decide_eq_true_eq]
    tauto
  · intro h
    simp only [passwordRegexAccepts, Bool.and_eq_true, List.any_eq_true,
      List.all_eq_true, decide_eq_true_eq] at h
    obtain ⟨⟨⟨⟨⟨hl, hu⟩, hd⟩, hs⟩, _⟩, hlen⟩ := h
    obtain ⟨c, hc, hcs⟩ := hs
    simp only [specComplexity, Bool.and_eq_true, List.any_eq_true,
      decide_eq_true_eq]
    exact ⟨⟨⟨⟨hlen, hu⟩, hl⟩, hd⟩, c, hc, passwordSymbol_not_alnum c hcs⟩
  · intro h hash
    simp [userSavePassword, h]
  · intro h hash
    simp [userSavePassword, h]

/-- C7 witness: the compliant secret `"Aa1@aaaa"` is accepted and satisfies
the spec's classes; the rejected `"weakweak"` is refused with a validation
error before hashing. -/
theorem C7_password_validator_witness :
    passwordRegexAccepts goodPw = true ∧ specComplexity goodPw = true ∧
    userSavePassword demoHash weakPw = .validationError :=
  ⟨by decide, (C7_password_validator goodPw).2.1 (by decide),
   (C7_password_validator weakPw).2.2.1 (by decide) demoHash⟩

/-- C6 amended: consumption succeeds exactly when some ledger entry matches
the secret value with `used = false` and a future expiry AND the owning user
exists AND the new secret passes the complexity validation; whenever no entry
matches — not found, already used, or expired alike — the caller gets the
single undifferentiated 'Invalid or expired password reset token' outcome
with the state unchanged; and after any successful consumption, consuming the
same secret value again fails, at any later time and with any new password
(given token values are unique in the ledger). -/
theorem resetPasswordF_no_valid_token (hash : List Char → List Char)
    (now : Nat) (tv : String) (np : List Char) (uOk tOk : Bool) (s : AuthState)
    (htv : tv.isEmpty = false) (hnp : np.isEmpty = false)
    (hfind : s.tokens.find? (validTokenPred now tv) = none) :
    resetPasswordF hash now (some tv) (some np) uOk tOk s =
      ({ status := 400, message := "Invalid or expired password reset token" }, s) := by
  simp [resetPasswordF, strFalsy, pwFalsy, htv, hnp, hfind]

/-- When the token matches, the user exists and the new password validates,
`resetPassword` answers 200 and the state has the user's credential rehashed
and the matched ledger entry marked used. -/
theorem resetPassword_success_shape (hash : List Char → List Char)
    (now : Nat) (tv : String) (np : List Char) (s : AuthState)
    (htv : tv.isEmpty = false) (hnp : np.isEmpty = false)
    (rt : ResetTokenDoc) (u : UserDoc)
    (hfind : s.tokens.find? (validTokenPred now tv) = some rt)
    (hu : s.users.find? (fun x => x.id == rt.userId) = some u)
    (hpw : passwordRegexAccepts np = true) :
    resetPassword hash now (some tv) (some np) s =
      ({ status := 200, message := "Password has been reset successfully" },
       { users := s.users.map (fun x =>
           if x.id == u.id then { x with password := hash np } else x),
         tokens := s.tokens.map (fun t =>
           if t.id == rt.id then { t with used := true } else t) }) := by
  simp [resetPassword, resetPasswordF, strFalsy, pwFalsy, htv, hnp, hfind, hu, hpw]

theorem C6_consumption_characterized (hash : List Char → List Char)
    (now : Nat) (tv : String) (np : List Char) (s : AuthState)
    (htv : tv.isEmpty = false) (hnp : np.isEmpty = false)
    (hdup : ∀ t1 ∈ s.tokens, ∀ t2 ∈ s.tokens,
      t1.token = tv → t2.token = tv → t1.id = t2.id) :
    ((resetPassword hash now (some tv) (some np) s).1.status = 200 ↔
      ∃ rt, s.tokens.find? (validTokenPred now tv) = some rt ∧
        (s.users.find? (fun u => u.id == rt.userId)).isSome = true ∧
        passwordRegexAccepts np = true) ∧
    (s.tokens.find? (validTokenPred now tv) = none →
      resetPassword hash now (some tv) (some np) s =
        ({ status := 400, message := "Invalid or expired password reset token" }, s)) ∧
    ((resetPassword hash now (some tv) (some np) s).1.status = 200 →
      ∀ now' hash' np',
        (resetPassword hash' now' (some tv) (some np')
          (resetPassword hash now (some tv) (some np) s).2).1.status ≠ 200) := by
  refine ⟨?_, ?_, ?_⟩
  · cases hfind : s.tokens.find? (validTokenPred now tv) with
    | none =>
      have hres := resetPasswordF_no_valid_token hash now tv np true true s htv hnp hfind
      rw [show resetPassword hash now (some tv) (some np) s = _ from hres]
      simp
    | some rt =>
      cases hu : s.users.find? (fun x => x.id == rt.userId) with
      | none =>
        have hres : resetPassword hash now (some tv) (some np) s =
            ({ status := 404, message := "User not found" }, s) := by
          simp [resetPassword, resetPasswordF, strFalsy, pwFalsy, htv, hnp, hfind, hu]
        rw [hres]
        constructor
        · intro h
          simp at h
        · rintro ⟨rt1, hrt1, hsome, -⟩
          obtain rfl : rt = rt1 := by injection hrt1
          rw [hu] at hsome
          exact absurd hsome (by decide)
      | some u =>
        cases hpw : passwordRegexAccepts np with
        | false =>
          have hres : resetPassword hash now (some tv) (some np) s =
              ({ status := 400, message := "Password does not meet requirements" }, s) := by
            simp [resetPassword, resetPasswordF, strFalsy, pwFalsy, htv, hnp,
              hfind, hu, hpw]
          rw [hres]
          simp [hpw]
        | true =>
          rw [resetPassword_success_shape hash now tv np s htv hnp rt u hfind hu hpw]
          exact iff_of_true rfl ⟨rt, rfl, by rw [hu]; rfl, rfl⟩
  · intro hfind
    exact resetPasswordF_no_valid_token hash now tv np true true s htv hnp hfind
  · intro h200 now' hash' np'
    cases hfind : s.tokens.find? (validTokenPred now tv) with
    | none =>
      rw [show resetPassword hash now (some tv) (some np) s = _ from
        resetPasswordF_no_valid_token hash now tv np true true s htv hnp hfind] at h200
      simp at h200
    | some rt =>
      cases hu : s.users.find? (fun x => x.id == rt.userId) with
      | none =>
        have hres : resetPassword hash now (some tv) (some np) s =
            ({ status := 404, message := "User not found" }, s) := by
          simp [resetPassword, resetPasswordF, strFalsy, pwFalsy, htv, hnp, hfind, hu]
        rw [hres] at h200
        simp at h200
      | some u =>
        cases hpw : passwordRegexAccepts np with
        | false =>
          have hres : resetPassword hash now (some tv) (some np) s =
              ({ status := 400, message := "Password does not meet requirements" }, s) := by
            simp [resetPassword, resetPasswordF, strFalsy, pwFalsy, htv, hnp,
              hfind, hu, hpw]
          rw [hres] at h200
          simp at h200
        | true =>
          have hrtmem : rt ∈ s.tokens := List.mem_of_find?_eq_some hfind
          have hrtp : validTokenPred now tv rt = true := List.find?_some hfind
          have hrttv : rt.token = tv := by
            simp only [validTokenPred, Bool.and_eq_true, beq_iff_eq] at hrtp
            exact hrtp.1.1
          have hstate := resetPassword_success_shape hash now tv np s htv hnp rt u hfind hu hpw
          have hnone : (s.tokens.map (fun t =>
              if t.id == rt.id then { t with used := true } else t)).find?
                (validTokenPred now' tv) = none := by
            rw [List.find?_eq_none]
            intro t' ht'
            obtain ⟨t, ht, rfl⟩ := List.mem_map.mp ht'
            by_cases hid : (t.id == rt.id) = true
            · simp [hid, validTokenPred]
            · have htok : ¬(t.token = tv) := fun habs =>
                hid (by simp [hdup t ht rt hrtmem habs hrttv])
              simp [hid, validTokenPred, htok]
          cases hnp' : np'.isEmpty with
          | true =>
            have : resetPassword hash' now' (some tv) (some np')
                (resetPassword hash now (some tv) (some np) s).2 =
                ({ status := 400, message := "Token and new password are required" },
                 (resetPassword hash now (some tv) (some np) s).2) := by
              simp [resetPassword, resetPasswordF, strFalsy, pwFalsy, hnp']
            rw [this]
            simp
          | false =>
            have h400 : resetPassword hash' now' (some tv) (some np')
                (resetPassword hash now (some tv) (some np) s).2 =
                ({ status := 400, message := "Invalid or expired password reset token" },
                 (resetPassword hash now (some tv) (some np) s).2) := by
              refine resetPasswordF_no_valid_token hash' now' tv np' true true _ htv hnp' ?_
              rw [hstate]
              exact hnone
            rw [h400]
            simp

/-- C6 amended, witness: in the demo state (one unused unexpired token
`"tok"` for the one user) the characterization applies: consuming with the
compliant password `"Aa1@aaaa"` succeeds, and the no-match and
second-consumption clauses hold. -/
theorem C6_consumption_characterized_witness :
    ((resetPassword demoHash 10 (some "tok") (some goodPw) authDemo).1.status = 200 ↔
      ∃ rt, authDemo.tokens.find? (validTokenPred 10 "tok") = some rt ∧
        (authDemo.users.find? (fun u => u.id == rt.userId)).isSome = true ∧
        passwordRegexAccepts goodPw = true) ∧
    (authDemo.tokens.find? (validTokenPred 10 "tok") = none →
      resetPassword demoHash 10 (some "tok") (some goodPw) authDemo =
        ({ status := 400, message := "Invalid or expired password reset token" },
         authDemo)) ∧
    ((resetPassword demoHash 10 (some "tok") (some goodPw) authDemo).1.status = 200 →
      ∀ now' hash' np',
        (resetPassword hash' now' (some "tok") (some np')
          (resetPassword demoHash 10 (some "tok") (some goodPw) authDemo).2).1.status ≠ 200) :=
  C6_consumption_characterized demoHash 10 "tok" goodPw authDemo
    (by decide) (by decide) (by decide)

/-- C10: a reset request never invalidates earlier reset tokens.  Starting
from a user with an empty ledger, two successful requests (times `n1`, `n2`,
fresh token values `tv1 ≠ tv2`, any delivery outcomes) leave both entries in
the ledger simultaneously unused, and both are unexpired at any `n3` inside
both expiry windows; consuming either one succeeds, and after consuming the
first the second is still consumable. -/
theorem C10_multiple_reset_tokens
    (u : UserDoc) (e tv1 tv2 : String) (np : List Char)
    (hash : List Char → List Char)
    (n1 n2 n3 n4 id1 id2 : Nat) (d1 d2 : Bool)
    (he : u.email = e) (hee : e.isEmpty = false)
    (htv1 : tv1.isEmpty = false) (htv2 : tv2.isEmpty = false)
    (hne : tv1 ≠ tv2) (hid : id1 ≠ id2)
    (hnp : np.isEmpty = false) (hgood : passwordRegexAccepts np = true)
    (h31 : n3 < n1 + 3600000) (h32 : n3 < n2 + 3600000)
    (h42 : n4 < n2 + 3600000) :
    (requestPasswordReset (some e) n1 id1 tv1 d1 ⟨[u], []⟩).1.status = 200 ∧
    (requestPasswordReset (some e) n1 id1 tv1 d1 ⟨[u], []⟩).2 =
      ⟨[u], [⟨id1, u.id, tv1, n1, n1 + 3600000, false⟩]⟩ ∧
    (requestPasswordReset (some e) n2 id2 tv2 d2
        ⟨[u], [⟨id1, u.id, tv1, n1, n1 + 3600000, false⟩]⟩).1.status = 200 ∧
    (requestPasswordReset (some e) n2 id2 tv2 d2
        ⟨[u], [⟨id1, u.id, tv1, n1, n1 + 3600000, false⟩]⟩).2 =
      ⟨[u], [⟨id1, u.id, tv1, n1, n1 + 3600000, false⟩,
             ⟨id2, u.id, tv2, n2, n2 + 3600000, false⟩]⟩ ∧
    validTokenPred n3 tv1 ⟨id1, u.id, tv1, n1, n1 + 3600000, false⟩ = true ∧
    validTokenPred n3 tv2 ⟨id2, u.id, tv2, n2, n2 + 3600000, false⟩ = true ∧
    (resetPassword hash n3 (some tv1) (some np)
      ⟨[u], [⟨id1, u.id, tv1, n1, n1 + 3600000, false⟩,
             ⟨id2, u.id, tv2, n2, n2 + 3600000, false⟩]⟩).1.status = 200 ∧
    (resetPassword hash n3 (some tv2) (some np)
      ⟨[u], [⟨id1, u.id, tv1, n1, n1 + 3600000, false⟩,
             ⟨id2, u.id, tv2, n2, n2 + 3600000, false⟩]⟩).1.status = 200 ∧
    (resetPassword hash n4 (some tv2) (some np)
      (resetPassword hash n3 (some tv1) (some np)
        ⟨[u], [⟨id1, u.id, tv1, n1, n1 + 3600000, false⟩,
               ⟨id2, u.id, tv2, n2, n2 + 3600000, false⟩]⟩).2).1.status = 200 := by
  have hid' : id2 ≠ id1 := Ne.symm hid
  have hbe : (tv1 == tv2) = false := beq_eq_false_iff_ne.mpr hne
  have hr1 : requestPasswordReset (some e) n1 id1 tv1 d1 ⟨[u], []⟩ =
      ({ status := 200, message := uniformResetMsg },
       ⟨[u], [⟨id1, u.id, tv1, n1, n1 + 3600000, false⟩]⟩) := by
    simp [requestPasswordReset, strFalsy, hee, List.find?, he,
      sendPasswordResetEmail, EmailResponse.jsFalsy]
  have hr2 : requestPasswordReset (some e) n2 id2 tv2 d2
      ⟨[u], [⟨id1, u.id, tv1, n1, n1 + 3600000, false⟩]⟩ =
      ({ status := 200, message := uniformResetMsg },
       ⟨[u], [⟨id1, u.id, tv1, n1, n1 + 3600000, false⟩,
              ⟨id2, u.id, tv2, n2, n2 + 3600000, false⟩]⟩) := by
    simp [requestPasswordReset, strFalsy, hee, List.find?, he,
      sendPasswordResetEmail, EmailResponse.jsFalsy]
  have hfind1 : ([⟨id1, u.id, tv1, n1, n1 + 3600000, false⟩,
      ⟨id2, u.id, tv2, n2, n2 + 3600000, false⟩] : List ResetTokenDoc).find?
        (validTokenPred n3 tv1) = some ⟨id1, u.id, tv1, n1, n1 + 3600000, false⟩ := by
    simp [List.find?, validTokenPred, h31]
  have hfind2 : ([⟨id1, u.id, tv1, n1, n1 + 3600000, false⟩,
      ⟨id2, u.id, tv2, n2, n2 + 3600000, false⟩] : List ResetTokenDoc).find?
        (validTokenPred n3 tv2) = some ⟨id2, u.id, tv2, n2, n2 + 3600000, false⟩ := by
    simp [List.find?, validTokenPred, h32, hbe]
  have hu1 : (([u] : List UserDoc).find? (fun x =>
      x.id == (⟨id1, u.id, tv1, n1, n1 + 3600000, false⟩ : ResetTokenDoc).userId)) = some u := by
    simp [List.find?]
  have hu2 : (([u] : List UserDoc).find? (fun x =>
      x.id == (⟨id2, u.id, tv2, n2, n2 + 3600000, false⟩ : ResetTokenDoc).userId)) = some u := by
    simp [List.find?]
  have hd1 := resetPassword_success_shape hash n3 tv1 np
    ⟨[u], [⟨id1, u.id, tv1, n1, n1 + 3600000, false⟩,
           ⟨id2, u.id, tv2, n2, n2 + 3600000, false⟩]⟩ htv1 hnp
    ⟨id1, u.id, tv1, n1, n1 + 3600000, false⟩ u hfind1 hu1 hgood
  have hd2 := resetPassword_success_shape hash n3 tv2 np
    ⟨[u], [⟨id1, u.id, tv1, n1, n1 + 3600000, false⟩,
           ⟨id2, u.id, tv2, n2, n2 + 3600000, false⟩]⟩ htv2 hnp
    ⟨id2, u.id, tv2, n2, n2 + 3600000, false⟩ u hfind2 hu2 hgood
  have hs3 : (resetPassword hash n3 (some tv1) (some np)
      ⟨[u], [⟨id1, u.id, tv1, n1, n1 + 3600000, false⟩,
             ⟨id2, u.id, tv2, n2, n2 + 3600000, false⟩]⟩).2 =
      ⟨[{ u with password := hash np }],
       [⟨id1, u.id, tv1, n1, n1 + 3600000, true⟩,
        ⟨id2, u.id, tv2, n2, n2 + 3600000, false⟩]⟩ := by
    rw [hd1]
    simp [hid']
  have hfind2' : ([⟨id1, u.id, tv1, n1, n1 + 3600000, true⟩,
      ⟨id2, u.id, tv2, n2, n2 + 3600000, false⟩] : List ResetTokenDoc).find?
        (validTokenPred n4 tv2) = some ⟨id2, u.id, tv2, n2, n2 + 3600000, false⟩ := by
    simp [List.find?, validTokenPred, h42, hbe]
  have hu2' : (([{ u with password := hash np }] : List UserDoc).find? (fun x =>
      x.id == (⟨id2, u.id, tv2, n2, n2 + 3600000, false⟩ : ResetTokenDoc).userId)) =
      some { u with password := hash np } := by
    simp [List.find?]
  have hd3 := resetPassword_success_shape hash n4 tv2 np
    ⟨[{ u with password := hash np }],
     [⟨id1, u.id, tv1, n1, n1 + 3600000, true⟩,
      ⟨id2, u.id, tv2, n2, n2 + 3600000, false⟩]⟩ htv2 hnp
    ⟨id2, u.id, tv2, n2, n2 + 3600000, false⟩ { u with password := hash np }
    hfind2' hu2' hgood
  refine ⟨by rw [hr1], by rw [hr1], by rw [hr2], by rw [hr2],
    by simp [validTokenPred, h31], by simp [validTokenPred, h32],
    by rw [hd1], by rw [hd2], ?_⟩
  rw [hs3, hd3]

/-- C10 witness: concrete instantiation — user 1 requests twice (tokens
`"t1"`, `"t2"`), both entries are live, consuming either succeeds, and after
consuming `"t1"` the token `"t2"` still consumes successfully. -/
theorem C10_multiple_reset_tokens_witness :
    (requestPasswordReset (some "a@b.com") 0 1 "t1" true
      ⟨[⟨1, "a@b.com", "Ann", ['h']⟩], []⟩).1.status = 200 ∧
    (requestPasswordReset (some "a@b.com") 0 1 "t1" true
      ⟨[⟨1, "a@b.com", "Ann", ['h']⟩], []⟩).2 =
      ⟨[⟨1, "a@b.com", "Ann", ['h']⟩], [⟨1, 1, "t1", 0, 0 + 3600000, false⟩]⟩ ∧
    (requestPasswordReset (some "a@b.com") 5 2 "t2" true
      ⟨[⟨1, "a@b.com", "Ann", ['h']⟩], [⟨1, 1, "t1", 0, 0 + 3600000, false⟩]⟩).1.status = 200 ∧
    (requestPasswordReset (some "a@b.com") 5 2 "t2" true
      ⟨[⟨1, "a@b.com", "Ann", ['h']⟩], [⟨1, 1, "t1", 0, 0 + 3600000, false⟩]⟩).2 =
      ⟨[⟨1, "a@b.com", "Ann", ['h']⟩],
       [⟨1, 1, "t1", 0, 0 + 3600000, false⟩, ⟨2, 1, "t2", 5, 5 + 3600000, false⟩]⟩ ∧
    validTokenPred 10 "t1" ⟨1, 1, "t1", 0, 0 + 3600000, false⟩ = true ∧
    validTokenPred 10 "t2" ⟨2, 1, "t2", 5, 5 + 3600000, false⟩ = true ∧
    (resetPassword demoHash 10 (some "t1") (some goodPw)
      ⟨[⟨1, "a@b.com", "Ann", ['h']⟩],
       [⟨1, 1, "t1", 0, 0 + 3600000, false⟩,
        ⟨2, 1, "t2", 5, 5 + 3600000, false⟩]⟩).1.status = 200 ∧
    (resetPassword demoHash 10 (some "t2") (some goodPw)
      ⟨[⟨1, "a@b.com", "Ann", ['h']⟩],
       [⟨1, 1, "t1", 0, 0 + 3600000, false⟩,
        ⟨2, 1, "t2", 5, 5 + 3600000, false⟩]⟩).1.status = 200 ∧
    (resetPassword demoHash 20 (some "t2") (some goodPw)
      (resetPassword demoHash 10 (some "t1") (some goodPw)
        ⟨[⟨1, "a@b.com", "Ann", ['h']⟩],
         [⟨1, 1, "t1", 0, 0 + 3600000, false⟩,
          ⟨2, 1, "t2", 5, 5 + 3600000, false⟩]⟩).2).1.status = 200 :=
  C10_multiple_reset_tokens ⟨1, "a@b.com", "Ann", ['h']⟩ "a@b.com" "t1" "t2"
    goodPw demoHash 0 5 10 20 1 2 true true
    rfl (by decide) (by decide) (by decide) (by decide) (by decide)
    (by decide) (by decide) (by decide) (by decide) (by decide)

end MiniProject
